import Mathlib

/-!
# Verification of the `lights` QNMCEM inference engine

Shallow embedding of the numerical core of the `lights` repository
(penalties, M-step objectives, association functions, the QNMCEM
orchestrator's convergence bookkeeping and scoring dispatch), together
with theorems settling the specification claims about it.

Vectors and matrices are modelled as (nested) lists; real-valued
computations are modelled over `ℝ` (when `exp`/`log`/`sqrt` is involved)
or over `ℚ` (purely rational arithmetic), with Python/NumPy behaviour
embedded operation by operation from the source files.
-/

namespace lights

/-! ## Generic vector helpers (lists as NumPy 1-D arrays) -/

/-- Dot product of two vectors, `u.dot(v)`. -/
def dotL {α : Type} [Mul α] [AddCommMonoid α] (u v : List α) : α :=
  (List.zipWith (· * ·) u v).sum

/-- Contiguous slice `v[a : a+len]` of a vector. -/
def sliceL {α : Type} (v : List α) (a len : ℕ) : List α :=
  (v.drop a).take len

/-- Sum of squares of a vector, i.e. `np.linalg.norm(v) ** 2`. -/
def sumSq {α : Type} [Mul α] [AddCommMonoid α] (v : List α) : α :=
  (v.map fun x => x * x).sum

/-- Euclidean norm `np.linalg.norm(v)` of a real vector. -/
noncomputable def normL2 (v : List ℝ) : ℝ :=
  Real.sqrt (sumSq v)

/-- Arithmetic mean `v.mean()` of a real vector. -/
noncomputable def meanL (v : List ℝ) : ℝ :=
  v.sum / (v.length : ℝ)

/-- `np.array_split(v, L)`: splits `v` into `L` parts, the first
`len v % L` of size `len v / L + 1`, the rest of size `len v / L`. -/
def array_split {α : Type} (v : List α) (L : ℕ) : List (List α) :=
  (List.range L).map fun i =>
    sliceL v (i * (v.length / L) + min i (v.length % L))
      (if i < v.length % L then v.length / L + 1 else v.length / L)

/-! ## Helpers from `lights.base.base`

The module `lights/base/base.py` is not part of the provided sources
(only its callers are), so its helpers are modelled from the spec. -/

/-- Modelled from the spec: `get_vect_from_ext` of the missing
`lights/base/base.py` — signed decomposition, `v = v_ext[:d] - v_ext[d:]`
where `d` is half the length of `v_ext`. -/
def get_vect_from_ext {α : Type} [Sub α] (v_ext : List α) : List α :=
  List.zipWith (· - ·) (v_ext.take (v_ext.length / 2))
    (v_ext.drop (v_ext.length / 2))

/-- Modelled from the spec: `get_xi_from_xi_ext` of the missing
`lights/base/base.py` — recovers `(xi_0, xi)` from the signed
decomposition `xi_ext ∈ R^{2p}`; when an intercept is fitted it occupies
index 0 of each half and becomes `xi_0`, otherwise `xi_0 = 0`. -/
def get_xi_from_xi_ext {α : Type} [Sub α] [Zero α] (xi_ext : List α)
    (fit_intercept : Bool) : α × List α :=
  let full := get_vect_from_ext xi_ext
  if fit_intercept then (full.headD 0, full.tail) else (0, full)

/-- Modelled from the spec: `clean_xi_ext` of the missing
`lights/base/base.py` — removes the unpenalized intercept entries
(index 0 of each half) from the signed decomposition when an intercept
is fitted. -/
def clean_xi_ext {α : Type} (xi_ext : List α) (fit_intercept : Bool) :
    List α :=
  if fit_intercept then
    (xi_ext.take (xi_ext.length / 2)).tail ++
      (xi_ext.drop (xi_ext.length / 2)).tail
  else xi_ext

/-! ## Overflow-safe logistic functions (`QNMCEM.logistic_grad`,
`QNMCEM.logistic_loss`, `inference.py` lines 299-320)

The NumPy code branches on the sign of each entry; we embed the
element-wise scalar computation. The `logistic_loss` of the missing
`lights/base/base.py` used by `m_step_functions.py` is modelled from the
spec by this same sign-branching formula. -/

/-- `QNMCEM.logistic_grad`: overflow-proof computation of
`1 / (1 + exp(-z))`, branch on `z ≥ 0` as in the source. -/
noncomputable def logistic_grad (z : ℝ) : ℝ :=
  if 0 ≤ z then 1 / (1 + Real.exp (-z))
  else 1 - 1 / (1 + Real.exp z)

/-- `QNMCEM.logistic_loss`: overflow-proof computation of
`log(1 + exp(-z))`, branch on `z ≥ 0` as in the source. -/
noncomputable def logistic_loss (z : ℝ) : ℝ :=
  if 0 ≤ z then Real.log (1 + Real.exp (-z))
  else -z + Real.log (1 + Real.exp z)

/-! ## Penalties (`lights/model/regularizations.py`) -/

namespace Penalties

/-- `Penalties.elastic_net` (`regularizations.py` lines 66-85): elastic
net of `xi_ext`, the L1 part on the cleaned signed decomposition and the
ridge part on the recovered vector `xi`. -/
noncomputable def elastic_net (fit_intercept : Bool) (l_pen eta : ℝ)
    (xi_ext : List ℝ) : ℝ :=
  let xi := (get_xi_from_xi_ext xi_ext fit_intercept).2
  l_pen * ((1 - eta) * (clean_xi_ext xi_ext fit_intercept).sum +
    0.5 * eta * normL2 xi ^ 2)

/-- `Penalties.sparse_group_l1` (`regularizations.py` lines 111-126):
`l_pen * ((1 - eta) * v_ext.sum() + eta * np.linalg.norm(v))`, the
*global* Euclidean norm of the recovered vector. -/
noncomputable def sparse_group_l1 (l_pen eta : ℝ) (v_ext : List ℝ) : ℝ :=
  l_pen * ((1 - eta) * v_ext.sum + eta * normL2 (get_vect_from_ext v_ext))

/-- The sparse-group-L1 penalty as the spec states it: the group-norm
term is the *sum over longitudinal-feature groups* of the per-group
Euclidean norms (to be compared with `Penalties.sparse_group_l1`). -/
noncomputable def sparse_group_l1_spec (l_pen eta : ℝ)
    (n_long_features : ℕ) (v_ext : List ℝ) : ℝ :=
  l_pen * ((1 - eta) * v_ext.sum +
    eta * ((array_split (get_vect_from_ext v_ext) n_long_features).map
      normL2).sum)

/-- The divisor vector `tmp` built by `Penalties.grad_sparse_group_l1`
(`regularizations.py` lines 151-153): per-group Euclidean norms, each
repeated `dim // n_long_features` times — with no floor applied. -/
noncomputable def grad_sp_gp_l1_divisors (v : List ℝ)
    (n_long_features : ℕ) : List ℝ :=
  ((array_split v n_long_features).map fun v_l =>
    List.replicate (v.length / n_long_features) (normL2 v_l)).flatten

/-- `Penalties.grad_sparse_group_l1` (`regularizations.py` lines
128-157): lasso constant plus `±(l_pen * eta) * v / tmp`, the division
being taken entry-wise against the per-group norms. -/
noncomputable def grad_sparse_group_l1 (l_pen eta : ℝ) (v : List ℝ)
    (n_long_features : ℕ) : List ℝ :=
  let tmp := grad_sp_gp_l1_divisors v n_long_features
  let grad_pos := List.zipWith (fun vi ti => l_pen * eta * vi / ti) v tmp
  (grad_pos.map fun g => l_pen * (1 - eta) + g) ++
    (grad_pos.map fun g => l_pen * (1 - eta) - g)

/-- The parameter names of `Penalties.__init__`
(`regularizations.py` line 30), none of which has a default value. -/
def initParams : List String :=
  ["fit_intercept", "l_pen", "eta_elastic_net", "eta_sp_gp_l1"]

end Penalties

/-! ## Python positional-call semantics (for `MstepFunctions.__init__`) -/

/-- Python exception kinds relevant to the embedded calls. -/
inductive PyError : Type
  | typeError : String → PyError
  | valueError : String → PyError
deriving DecidableEq

/-- Positional-argument binding of a Python call: with no defaulted
parameters, binding succeeds exactly when the number of supplied
positional arguments equals the number of declared parameters; otherwise
Python raises a `TypeError` before the function body runs. -/
def bindPositional {α : Type} (params : List String) (args : List α) :
    Except PyError (List (String × α)) :=
  if args.length = params.length then Except.ok (params.zip args)
  else Except.error (PyError.typeError "positional argument count mismatch")

/-! ## M-step objectives (`lights/model/m_step_functions.py`) -/

namespace MstepFunctions

/-- The call `Penalties(l_pen, eta_elastic_net, eta_sp_gp_l1)` performed
by `MstepFunctions.__init__` (`m_step_functions.py` line 59): three
positional arguments bound against the four required parameters of
`Penalties.__init__`. -/
def init_pen_call (l_pen eta_elastic_net eta_sp_gp_l1 : ℚ) :
    Except PyError (List (String × ℚ)) :=
  bindPositional Penalties.initParams [l_pen, eta_elastic_net, eta_sp_gp_l1]

/-- `MstepFunctions.P_func` (`m_step_functions.py` lines 86-107):
`(pi_est * logistic_loss(xi_0 + X.dot(xi))).mean()` with `(xi_0, xi)`
recovered from the signed decomposition `xi_ext`. -/
noncomputable def P_func (fit_intercept : Bool) (X : List (List ℝ))
    (pi_est xi_ext : List ℝ) : ℝ :=
  let xz := get_xi_from_xi_ext xi_ext fit_intercept
  meanL (List.zipWith (fun w u => w * logistic_loss u) pi_est
    (X.map fun x_i => xz.1 + dotL x_i xz.2))

/-- `MstepFunctions.P_pen_func` (`m_step_functions.py` lines 61-84):
`P_func` plus `self.pen.elastic_net(xi)` — note the argument is the
*recovered* vector `xi`, not the signed decomposition `xi_ext`. -/
noncomputable def P_pen_func (fit_intercept : Bool) (l_pen eta : ℝ)
    (X : List (List ℝ)) (pi_est xi_ext : List ℝ) : ℝ :=
  let xi := (get_xi_from_xi_ext xi_ext fit_intercept).2
  P_func fit_intercept X pi_est xi_ext +
    Penalties.elastic_net fit_intercept l_pen eta xi

end MstepFunctions

/-! ## QNMCEM orchestrator (`lights/inference.py`) -/

namespace QNMCEM

/-- `QNMCEM._get_xi_from_xi_ext` (`inference.py` lines 322-347), with
`p = n_time_indep_features` explicit. -/
def _get_xi_from_xi_ext (p : ℕ) (fit_intercept : Bool)
    (xi_ext : List ℝ) : ℝ × List ℝ :=
  if fit_intercept then
    let xi := List.zipWith (· - ·) (xi_ext.take (p + 1))
      (xi_ext.drop (p + 1))
    (xi.headD 0, xi.tail)
  else
    (0, List.zipWith (· - ·) (xi_ext.take p) (xi_ext.drop p))

/-- `QNMCEM._clean_xi_ext` (`inference.py` lines 349-356):
`np.delete(xi_ext, [0, p + 1])` when an intercept is fitted. -/
def _clean_xi_ext (p : ℕ) (fit_intercept : Bool) (xi_ext : List ℝ) :
    List ℝ :=
  if fit_intercept then
    (xi_ext.take (p + 1)).tail ++ (xi_ext.drop (p + 1)).tail
  else xi_ext

/-- `QNMCEM._elastic_net_pen` (`inference.py` lines 358-379). -/
noncomputable def _elastic_net_pen (l_elastic_net eta : ℝ) (p : ℕ)
    (fit_intercept : Bool) (xi_ext : List ℝ) : ℝ :=
  let xi := (_get_xi_from_xi_ext p fit_intercept xi_ext).2
  l_elastic_net * ((1 - eta) * (_clean_xi_ext p fit_intercept xi_ext).sum +
    0.5 * eta * normL2 xi ^ 2)

/-- `QNMCEM._log_lik` (`inference.py` lines 408-432): the body is the
stub `prb = 1; return np.mean(np.log(prb))` (its data arguments are
ignored). -/
noncomputable def _log_lik : ℝ :=
  Real.log 1

/-- `QNMCEM._func_obj` (`inference.py` lines 434-463): the global
penalized objective `-log_lik + elastic_net_pen(xi_ext)`. -/
noncomputable def _func_obj (l_elastic_net eta : ℝ) (p : ℕ)
    (fit_intercept : Bool) (xi_ext : List ℝ) : ℝ :=
  -_log_lik + _elastic_net_pen l_elastic_net eta p fit_intercept xi_ext

/-- `QNMCEM._P_func` (`inference.py` lines 465-491):
`(pi_est * u + logistic_loss(u)).mean() + elastic_net_pen(xi_ext)` with
`u = xi_0 + X.dot(xi)`. -/
noncomputable def _P_func (l_elastic_net eta : ℝ) (p : ℕ)
    (fit_intercept : Bool) (X : List (List ℝ)) (pi_est xi_ext : List ℝ) :
    ℝ :=
  let xz := _get_xi_from_xi_ext p fit_intercept xi_ext
  meanL (List.zipWith (fun w u => w * u + logistic_loss u) pi_est
    (X.map fun x_i => xz.1 + dotL x_i xz.2)) +
    _elastic_net_pen l_elastic_net eta p fit_intercept xi_ext

/-- The penalized P sub-objective as the claim states it:
`mean[pi_est * logistic_loss(xi_0 + X.dot(xi))]` plus the elastic-net
penalty *of `xi_ext`* (to be compared with `QNMCEM._P_func` and
`MstepFunctions.P_pen_func`). -/
noncomputable def P_pen_claimed (l_elastic_net eta : ℝ) (p : ℕ)
    (fit_intercept : Bool) (X : List (List ℝ)) (pi_est xi_ext : List ℝ) :
    ℝ :=
  let xz := _get_xi_from_xi_ext p fit_intercept xi_ext
  meanL (List.zipWith (fun w u => w * logistic_loss u) pi_est
    (X.map fun x_i => xz.1 + dotL x_i xz.2)) +
    _elastic_net_pen l_elastic_net eta p fit_intercept xi_ext

/-- The divisor of the relative-objective convergence check of
`QNMCEM.fit` (`inference.py` line 663). -/
noncomputable def rel_obj_divisor (prev_obj : ℝ) : ℝ :=
  |prev_obj|

/-- The relative-objective expression of `QNMCEM.fit` (`inference.py`
line 663): `abs(obj - prev_obj) / abs(prev_obj)`, an unconditional
division — the code contains no branch on `prev_obj = 0`. -/
noncomputable def rel_obj (obj prev_obj : ℝ) : ℝ :=
  |obj - prev_obj| / rel_obj_divisor prev_obj

/-- `QNMCEM.predict_marker` (`inference.py` lines 547-566): the body is
the stub `marker = None; return marker`. -/
def predict_marker (X Y : List (List ℝ)) : Option (List ℝ) :=
  none

/-- `QNMCEM.score` (`inference.py` lines 681-713): dispatch on `metric`;
`c_index_score` is the external `lifelines.utils.concordance_index`
collaborator, abstracted as a parameter. -/
noncomputable def score (c_index_score : List ℝ → Option (List ℝ) →
      List ℝ → ℝ) (X Y : List (List ℝ)) (T delta : List ℝ)
    (metric : String) : Except PyError ℝ :=
  if metric = "log_lik" then Except.ok _log_lik
  else if metric = "C-index" then
    Except.ok (c_index_score T (predict_marker X Y) delta)
  else Except.error (PyError.valueError
    ("metric must be log_lik or C-index, got " ++ metric ++ " instead"))

/-- One record of the append-only history,
`history.update(n_iter, obj, rel_obj)`. -/
structure HistRec : Type where
  n_iter : ℕ
  obj : ℚ
  rel_obj : ℚ
deriving DecidableEq

/-- The state threaded through the `fit` main loop: the Python variables
`n_iter`, `obj`, `rel_obj`, the history log, and a count of executed
E-step/M-step loop bodies. -/
structure FitLoopState : Type where
  n_iter : ℕ
  obj : ℚ
  rel_obj : ℚ
  history : List HistRec
  steps : ℕ
deriving DecidableEq

/-- The loop `for n_iter in range(max_iter)` of `QNMCEM.fit`
(`inference.py` lines 631-665), iterating over the remaining indices:
record history when `n_iter % print_every == 0`, execute the
E-step/M-step body (abstracted as `step`, which yields the next
objective value), recompute `rel_obj`, and break when
`n_iter > max_iter or rel_obj < tol`. -/
def fit_loop_go (step : ℕ → ℚ → ℚ) (tol : ℚ) (print_every max_iter : ℕ) :
    List ℕ → FitLoopState → FitLoopState
  | [], s => s
  | i :: rest, s =>
    let s1 : FitLoopState :=
      if i % print_every = 0 then
        { s with n_iter := i,
                 history := s.history ++ [⟨i, s.obj, s.rel_obj⟩] }
      else { s with n_iter := i }
    let prev_obj := s1.obj
    let obj2 := step i prev_obj
    let rel2 := |obj2 - prev_obj| / |prev_obj|
    let s2 : FitLoopState :=
      { s1 with obj := obj2, rel_obj := rel2, steps := s1.steps + 1 }
    if max_iter < i ∨ rel2 < tol then s2
    else fit_loop_go step tol print_every max_iter rest s2

/-- The iteration bookkeeping of `QNMCEM.fit` (`inference.py` lines
624-665): `n_iter = 0`, `rel_obj = 1.`, empty history, initial
objective `obj0`, then the main loop over `range(max_iter)`. -/
def fit_loop (step : ℕ → ℚ → ℚ) (tol : ℚ) (print_every max_iter : ℕ)
    (obj0 : ℚ) : FitLoopState :=
  fit_loop_go step tol print_every max_iter (List.range max_iter)
    ⟨0, obj0, 1, [], 0⟩

/-- The final history record appended by `QNMCEM.fit` after the loop
(`inference.py` line 667): `history.update(n_iter + 1, obj, rel_obj)`. -/
def fit_final_record (step : ℕ → ℚ → ℚ) (tol : ℚ)
    (print_every max_iter : ℕ) (obj0 : ℚ) : HistRec :=
  let s := fit_loop step tol print_every max_iter obj0
  ⟨s.n_iter + 1, s.obj, s.rel_obj⟩

end QNMCEM

/-! ## Association functions (`lights/model/associations.py`),
embedded over `ℚ` (only ring operations are involved). -/

namespace AssociationFunctions

/-- Row `i` of the fixed-effect design `U_l` built by
`AssociationFunctions.__init__` (`associations.py` lines 114-120):
`[1, T_i, ..., T_i^(q_l - 1)]`. -/
def U_l (T : List ℚ) (q_l : ℕ) : List (List ℚ) :=
  T.map fun t => (List.range q_l).map fun k => t ^ k

/-- Time-integral of the design basis, `iU_l`
(`associations.py` lines 116-121): `[T_i, T_i²/2, ..., T_i^q_l/q_l]`. -/
def iU_l (T : List ℚ) (q_l : ℕ) : List (List ℚ) :=
  T.map fun t => (List.range q_l).map fun k => t ^ (k + 1 : ℕ) / ((k : ℚ) + 1)

/-- Time-derivative of the design basis, `dU_l`
(`associations.py` lines 118-122): `[0, 1, 2 T_i, ...]`. -/
def dU_l (T : List ℚ) (q_l : ℕ) : List (List ℚ) :=
  T.map fun t => (List.range q_l).map fun (k : ℕ) =>
    if k = 0 then (0 : ℚ) else (k : ℚ) * t ^ (k - 1)

/-- Random-effect design `V_l` (`associations.py` line 124). -/
def V_l (T : List ℚ) : List (List ℚ) :=
  T.map fun t => [1, t]

/-- Time-integral `iV_l` (`associations.py` line 125). -/
def iV_l (T : List ℚ) : List (List ℚ) :=
  T.map fun t => [t, t ^ 2 / 2]

/-- Time-derivative `dV_l` (`associations.py` line 126). -/
def dV_l (T : List ℚ) : List (List ℚ) :=
  T.map fun t => [(0 : ℚ), 1]

/-- `AssociationFunctions._linear_association` (`associations.py` lines
141-171): the 4-D tensor `phi` of shape
`(n_samples, 2, n_long_features, 2N)` with
`phi[i, k, l, s] = U_i · beta_{k,l} + V_i · S_s[r_l*l : r_l*(l+1)]`. -/
def _linear_association (n_samples n_long_features N q_l r_l : ℕ)
    (beta0 beta1 : List ℚ) (S : List (List ℚ)) (U V : List (List ℚ)) :
    List (List (List (List ℚ))) :=
  (List.range n_samples).map fun i =>
    [(List.range n_long_features).map fun l =>
        (List.range (2 * N)).map fun s =>
          dotL (U.getD i []) (sliceL beta0 (q_l * l) q_l) +
            dotL (V.getD i []) (sliceL (S.getD s []) (r_l * l) r_l),
      (List.range n_long_features).map fun l =>
        (List.range (2 * N)).map fun s =>
          dotL (U.getD i []) (sliceL beta1 (q_l * l) q_l) +
            dotL (V.getD i []) (sliceL (S.getD s []) (r_l * l) r_l)]

/-- `AssociationFunctions.linear_predictor` (`associations.py` lines
173-183): `_linear_association(U_l, V_l)`; the instance holds
`N = len(S) // 2`, `r_l = 2`, `q_l = fixed_effect_time_order + 1`. -/
def linear_predictor (T : List ℚ) (fixed_effect_time_order
    n_long_features : ℕ) (beta0 beta1 : List ℚ) (S : List (List ℚ)) :
    List (List (List (List ℚ))) :=
  _linear_association T.length n_long_features (S.length / 2)
    (fixed_effect_time_order + 1) 2 beta0 beta1 S
    (U_l T (fixed_effect_time_order + 1)) (V_l T)

/-- `AssociationFunctions.time_dependent_slope` (`associations.py` lines
199-209): `_linear_association(dU_l, dV_l)`. -/
def time_dependent_slope (T : List ℚ) (fixed_effect_time_order
    n_long_features : ℕ) (beta0 beta1 : List ℚ) (S : List (List ℚ)) :
    List (List (List (List ℚ))) :=
  _linear_association T.length n_long_features (S.length / 2)
    (fixed_effect_time_order + 1) 2 beta0 beta1 S
    (dU_l T (fixed_effect_time_order + 1)) (dV_l T)

/-- `AssociationFunctions.cumulative_effects` (`associations.py` lines
211-221): `_linear_association(iU_l, iV_l)`. -/
def cumulative_effects (T : List ℚ) (fixed_effect_time_order
    n_long_features : ℕ) (beta0 beta1 : List ℚ) (S : List (List ℚ)) :
    List (List (List (List ℚ))) :=
  _linear_association T.length n_long_features (S.length / 2)
    (fixed_effect_time_order + 1) 2 beta0 beta1 S
    (iU_l T (fixed_effect_time_order + 1)) (iV_l T)

/-- `AssociationFunctions.random_effects` (`associations.py` lines
185-197): `np.broadcast_to(S.T, (n_samples, 2, r_l * L, 2N))`, the raw
draw `S[s][j]` broadcast over subjects and groups (valid when `S` has
`2N` rows of length `r_l * L`). -/
def random_effects (T : List ℚ) (n_long_features : ℕ)
    (S : List (List ℚ)) : List (List (List (List ℚ))) :=
  (List.range T.length).map fun _ =>
    (List.range 2).map fun _ =>
      (List.range (2 * n_long_features)).map fun j =>
        (List.range (2 * (S.length / 2))).map fun s =>
          (S.getD s []).getD j 0

/-- Entry access `A[i, k, l, s]` in a 4-D nested-list tensor. -/
def get4 (A : List (List (List (List ℚ)))) (i k l s : ℕ) : ℚ :=
  (((A.getD i []).getD k []).getD l []).getD s 0

/-- `A` is a well-formed 4-D array of shape `(d0, d1, d2, d3)`. -/
def shape4 (A : List (List (List (List ℚ)))) (d0 d1 d2 d3 : ℕ) : Prop :=
  A.length = d0 ∧ ∀ a ∈ A, a.length = d1 ∧ ∀ b ∈ a, b.length = d2 ∧
    ∀ c ∈ b, c.length = d3

end AssociationFunctions

end lights

/-! ## Supporting lemmas -/

namespace lights

theorem logistic_grad_pos (z : ℝ) : 0 < logistic_grad z := by
  unfold logistic_grad
  split
  · positivity
  · have h1 : Real.exp z < 1 := by
      have hz : z < 0 := by linarith [not_le.mp (by assumption)]
      simpa using Real.exp_lt_one_iff.mpr hz
    have h2 : (0:ℝ) < 1 + Real.exp z := by positivity
    have h3 : 1 / (1 + Real.exp z) < 1 := by
      rw [div_lt_one h2]
      linarith [Real.exp_pos z]
    linarith

theorem logistic_grad_lt_one (z : ℝ) : logistic_grad z < 1 := by
  unfold logistic_grad
  split
  · have h2 : (0:ℝ) < 1 + Real.exp (-z) := by positivity
    rw [div_lt_one h2]
    linarith [Real.exp_pos (-z)]
  · have h : 0 < 1 / (1 + Real.exp z) := by positivity
    linarith

theorem logistic_loss_nonneg (z : ℝ) : 0 ≤ logistic_loss z := by
  unfold logistic_loss
  split
  · exact Real.log_nonneg (by linarith [Real.exp_pos (-z)])
  · have hz : z < 0 := not_le.mp (by assumption)
    have h : 0 ≤ Real.log (1 + Real.exp z) :=
      Real.log_nonneg (by linarith [Real.exp_pos z])
    linarith

theorem logistic_grad_reflect (z : ℝ) :
    logistic_grad z = 1 - logistic_grad (-z) := by
  unfold logistic_grad
  rcases lt_trichotomy z 0 with hz | hz | hz
  · rw [if_neg (not_le.mpr hz), if_pos (by linarith : (0:ℝ) ≤ -z)]
    ring_nf
  · subst hz
    norm_num
  · rw [if_pos hz.le, if_neg (by simpa using not_le.mpr hz)]
    ring_nf

theorem logistic_loss_reflect (z : ℝ) :
    logistic_loss z - logistic_loss (-z) = -z := by
  unfold logistic_loss
  rcases lt_trichotomy z 0 with hz | hz | hz
  · rw [if_neg (not_le.mpr hz), if_pos (by linarith : (0:ℝ) ≤ -z)]
    ring_nf
  · subst hz
    norm_num
  · rw [if_pos hz.le, if_neg (by simpa using not_le.mpr hz)]
    ring_nf

end lights

/-! ## Claim theorems -/

/-- C2: for every real `z`, `logistic_grad z` lies strictly in `(0,1)`,
`logistic_loss z ≥ 0`, `logistic_grad z = 1 - logistic_grad (-z)` and
`logistic_loss z - logistic_loss (-z) = -z`; in particular the identities
hold (with finite values) at the large magnitudes `z = 500` and
`z = -500`. -/
theorem C2_logistic_identities (z : ℝ) :
    (0 < lights.logistic_grad z ∧ lights.logistic_grad z < 1) ∧
    0 ≤ lights.logistic_loss z ∧
    lights.logistic_grad z = 1 - lights.logistic_grad (-z) ∧
    lights.logistic_loss z - lights.logistic_loss (-z) = -z ∧
    lights.logistic_loss (500 : ℝ) - lights.logistic_loss (-(500 : ℝ)) =
      -(500 : ℝ) :=
  ⟨⟨lights.logistic_grad_pos z, lights.logistic_grad_lt_one z⟩,
    lights.logistic_loss_nonneg z,
    lights.logistic_grad_reflect z,
    lights.logistic_loss_reflect z,
    lights.logistic_loss_reflect 500⟩

/-- C3: the claim states `Penalties.sparse_group_l1` returns
`l_pen * ((1-eta) * sum(v_ext) + eta * Σ_groups ‖v_group‖₂)`; the code
instead uses the single global norm `‖v‖₂`. At `v_ext = [1,1,0,0]` with
two longitudinal-feature groups and `l_pen = eta = 1` the code yields
`√2` while the specified group-wise value is `2`. -/
theorem C3_sparse_group_l1_global_norm :
    lights.Penalties.sparse_group_l1 1 1 [1, 1, 0, 0] = Real.sqrt 2 ∧
    lights.Penalties.sparse_group_l1_spec 1 1 2 [1, 1, 0, 0] = 2 ∧
    Real.sqrt 2 ≠ 2 := by
  refine ⟨?_, ?_, ?_⟩
  · norm_num [lights.Penalties.sparse_group_l1, lights.get_vect_from_ext,
      lights.normL2, lights.sumSq]
  · norm_num [lights.Penalties.sparse_group_l1_spec, lights.array_split,
      lights.get_vect_from_ext, lights.normL2, lights.sumSq, lights.sliceL,
      List.range_succ]
  · exact ne_of_lt ((Real.sqrt_lt' (by norm_num)).mpr (by norm_num))

/-- C4: at `v = [0, 0]` with two longitudinal-feature groups, the
divisor vector `tmp` built by `Penalties.grad_sparse_group_l1` is
exactly `[0, 0]` — the code applies no numerical floor, so the
entry-wise division `v / tmp` it performs next is `0/0` (IEEE NaN),
contradicting the claimed guard. -/
theorem C4_grad_sparse_group_l1_zero_divisor :
    lights.Penalties.grad_sp_gp_l1_divisors [0, 0] 2 = [0, 0] := by
  norm_num [lights.Penalties.grad_sp_gp_l1_divisors, lights.array_split,
    lights.normL2, lights.sumSq, lights.sliceL, List.range_succ]

/-- C9: the call `Penalties(l_pen, eta_elastic_net, eta_sp_gp_l1)` made
by `MstepFunctions.__init__` supplies three positional arguments to the
four required parameters of `Penalties.__init__`, so for every argument
tuple the construction fails with a `TypeError` before any objective of
the class can be evaluated. -/
theorem C9_mstep_init_always_type_error
    (l_pen eta_elastic_net eta_sp_gp_l1 : ℚ) :
    lights.MstepFunctions.init_pen_call l_pen eta_elastic_net eta_sp_gp_l1 =
      Except.error
        (lights.PyError.typeError "positional argument count mismatch") :=
  rfl

/-- C7: `QNMCEM.score` returns the mean log-likelihood for
`metric = "log_lik"`, the concordance index of the predicted marker
against `(T, delta)` for `metric = "C-index"`, and raises a `ValueError`
exactly for every other metric string. -/
theorem C7_score_dispatch
    (c_index_score : List ℝ → Option (List ℝ) → List ℝ → ℝ)
    (X Y : List (List ℝ)) (T delta : List ℝ) (metric : String) :
    lights.QNMCEM.score c_index_score X Y T delta "log_lik" =
      Except.ok lights.QNMCEM._log_lik ∧
    lights.QNMCEM.score c_index_score X Y T delta "C-index" =
      Except.ok (c_index_score T (lights.QNMCEM.predict_marker X Y) delta) ∧
    ((∃ e, lights.QNMCEM.score c_index_score X Y T delta metric =
        Except.error e) ↔ metric ≠ "log_lik" ∧ metric ≠ "C-index") := by
  refine ⟨rfl, rfl, ?_⟩
  unfold lights.QNMCEM.score
  by_cases h1 : metric = "log_lik"
  · simp [h1]
  · by_cases h2 : metric = "C-index"
    · simp [h1, h2]
    · simp [h1, h2]

/-- C8 (amended): a `fit` call with `max_iter = 0` executes no
E-step/M-step loop body, records no in-loop history, and appends the
single final history record with iteration number `n_iter + 1 = 1`
(not 0), carrying the initial objective and `rel_obj = 1`. -/
theorem C8_fit_max_iter_zero (step : ℕ → ℚ → ℚ) (tol : ℚ)
    (print_every : ℕ) (obj0 : ℚ) :
    (lights.QNMCEM.fit_loop step tol print_every 0 obj0).steps = 0 ∧
    (lights.QNMCEM.fit_loop step tol print_every 0 obj0).history = [] ∧
    lights.QNMCEM.fit_final_record step tol print_every 0 obj0 =
      ⟨1, obj0, 1⟩ :=
  ⟨rfl, rfl, rfl⟩

/-- C8 counterexample: at `max_iter = 0` (identity E/M step, default
`print_every = 10`, `tol = 1e-5`, initial objective 0) the final history
record reports iteration number 1, not 0 as the claim states. -/
theorem C8_fit_reports_iteration_one :
    (lights.QNMCEM.fit_final_record (fun _ o => o) (1 / 100000) 10 0
      0).n_iter = 1 ∧ (1 : ℕ) ≠ 0 :=
  ⟨rfl, by decide⟩

namespace lights

theorem mem_zipWith_sub {x : ℝ} :
    ∀ {a b : List ℝ}, x ∈ List.zipWith (· - ·) a b →
      ∃ u ∈ a, ∃ v ∈ b, x = u - v := by
  intro a
  induction a with
  | nil => intro b h; simp at h
  | cons u a2 ih =>
    intro b h
    cases b with
    | nil => simp at h
    | cons v b2 =>
      rw [List.zipWith_cons_cons, List.mem_cons] at h
      rcases h with h | h
      · exact ⟨u, List.mem_cons_self u a2, v, List.mem_cons_self v b2, h⟩
      · obtain ⟨u2, hu, v2, hv, hx⟩ := ih h
        exact ⟨u2, List.mem_cons_of_mem u hu, v2,
          List.mem_cons_of_mem v hv, hx⟩

theorem normL2_eq_zero_of_all_zero (v : List ℝ)
    (h : ∀ x ∈ v, x = 0) : normL2 v = 0 := by
  have hs : sumSq v = 0 := by
    apply List.sum_eq_zero
    intro y hy
    obtain ⟨x, hx, rfl⟩ := List.mem_map.mp hy
    rw [h x hx]
    ring
  rw [normL2, hs, Real.sqrt_zero]

theorem _get_xi_all_zero (p : ℕ) (fi : Bool) (xi_ext : List ℝ)
    (h : ∀ x ∈ xi_ext, x = 0) :
    ∀ x ∈ (QNMCEM._get_xi_from_xi_ext p fi xi_ext).2, x = 0 := by
  intro x hx
  unfold QNMCEM._get_xi_from_xi_ext at hx
  cases fi with
  | false =>
    simp only [Bool.false_eq_true, if_false] at hx
    obtain ⟨u, hu, v, hv, rfl⟩ := mem_zipWith_sub hx
    rw [h u (List.take_subset _ _ hu), h v (List.drop_subset _ _ hv)]
    ring
  | true =>
    simp only [if_true] at hx
    have hx2 := List.tail_subset _ hx
    obtain ⟨u, hu, v, hv, rfl⟩ := mem_zipWith_sub hx2
    rw [h u (List.take_subset _ _ hu), h v (List.drop_subset _ _ hv)]
    ring

theorem _clean_sum_zero (p : ℕ) (fi : Bool) (xi_ext : List ℝ)
    (h : ∀ x ∈ xi_ext, x = 0) :
    (QNMCEM._clean_xi_ext p fi xi_ext).sum = 0 := by
  apply List.sum_eq_zero
  intro x hx
  unfold QNMCEM._clean_xi_ext at hx
  cases fi with
  | false => exact h x hx
  | true =>
    simp only [if_true] at hx
    rcases List.mem_append.mp hx with hx | hx
    · exact h x (List.take_subset _ _ (List.tail_subset _ hx))
    · exact h x (List.drop_subset _ _ (List.tail_subset _ hx))

end lights

/-- C5: the previous-objective value `prev_obj = 0` is actually reached
by `QNMCEM.fit` — the global objective at any all-zero `xi_ext` (the
initialization of line 600) is exactly 0 for every penalty setting — and
the divisor `abs(prev_obj)` of the relative-objective check at line 663
is then exactly 0: the code contains no guard, so NumPy evaluates
`0/0 = NaN` instead of the claimed finite fallback. -/
theorem C5_rel_obj_division_unguarded (l eta : ℝ) (p : ℕ) (fi : Bool)
    (xi_ext : List ℝ) (h : ∀ x ∈ xi_ext, x = 0) :
    lights.QNMCEM._func_obj l eta p fi xi_ext = 0 ∧
    lights.QNMCEM.rel_obj_divisor
      (lights.QNMCEM._func_obj l eta p fi xi_ext) = 0 := by
  have hobj : lights.QNMCEM._func_obj l eta p fi xi_ext = 0 := by
    have hclean := lights._clean_sum_zero p fi xi_ext h
    have hnorm := lights.normL2_eq_zero_of_all_zero _
      (lights._get_xi_all_zero p fi xi_ext h)
    unfold lights.QNMCEM._func_obj lights.QNMCEM._log_lik
      lights.QNMCEM._elastic_net_pen
    simp [hclean, hnorm]
  exact ⟨hobj, by rw [hobj]; simp [lights.QNMCEM.rel_obj_divisor]⟩

/-- C5 witness: the guard-free division is exercised at the concrete
input `xi_ext = [0, 0]`, `l = 1`, `eta = 1/2`, `p = 1`, no intercept. -/
theorem C5_rel_obj_division_unguarded_witness :
    lights.QNMCEM._func_obj 1 (1 / 2) 1 false [0, 0] = 0 ∧
    lights.QNMCEM.rel_obj_divisor
      (lights.QNMCEM._func_obj 1 (1 / 2) 1 false [0, 0]) = 0 := by
  have h : ∀ x ∈ ([0, 0] : List ℝ), x = 0 := by
    intro x hx
    simpa using hx
  exact C5_rel_obj_division_unguarded 1 (1 / 2) 1 false [0, 0] h

namespace lights

theorem zipWith_congr_fun {α β γ : Type} (f g : α → β → γ)
    (h : ∀ x y, f x y = g x y) :
    ∀ (a : List α) (b : List β), List.zipWith f a b = List.zipWith g a b := by
  intro a
  induction a with
  | nil => intro b; simp
  | cons x a2 ih =>
    intro b
    cases b with
    | nil => simp
    | cons y b2 => rw [List.zipWith_cons_cons, List.zipWith_cons_cons,
        h x y, ih b2]

theorem logistic_loss_neg (u : ℝ) :
    logistic_loss (-u) = logistic_loss u + u := by
  have h := logistic_loss_reflect u
  linarith

end lights

/-- C1 (amended): `QNMCEM._P_func` is *not*
`mean[pi_est * logistic_loss(u)] + pen`; it equals the posterior-weighted
cross-entropy `mean[pi_est * logistic_loss(-u) + (1 - pi_est) *
logistic_loss(u)] + elastic_net_pen(xi_ext)` with `u = xi_0 + X.dot(xi)`;
and `MstepFunctions.P_pen_func` uses the claimed loss term
`mean[pi_est * logistic_loss(u)]` but evaluates the elastic-net penalty
at the *recovered* vector `xi`, not at `xi_ext`. -/
theorem C1_P_objectives_amended (l eta : ℝ) (p : ℕ) (fi : Bool)
    (X : List (List ℝ)) (pi_est xi_ext : List ℝ) :
    lights.QNMCEM._P_func l eta p fi X pi_est xi_ext =
      lights.meanL (List.zipWith
        (fun w u => w * lights.logistic_loss (-u) +
          (1 - w) * lights.logistic_loss u) pi_est
        (X.map fun x_i =>
          (lights.QNMCEM._get_xi_from_xi_ext p fi xi_ext).1 +
            lights.dotL x_i
              (lights.QNMCEM._get_xi_from_xi_ext p fi xi_ext).2)) +
        lights.QNMCEM._elastic_net_pen l eta p fi xi_ext ∧
    lights.MstepFunctions.P_pen_func fi l eta X pi_est xi_ext =
      lights.meanL (List.zipWith
        (fun w u => w * lights.logistic_loss u) pi_est
        (X.map fun x_i =>
          (lights.get_xi_from_xi_ext xi_ext fi).1 +
            lights.dotL x_i (lights.get_xi_from_xi_ext xi_ext fi).2)) +
        lights.Penalties.elastic_net fi l eta
          (lights.get_xi_from_xi_ext xi_ext fi).2 := by
  constructor
  · unfold lights.QNMCEM._P_func
    have hz := lights.zipWith_congr_fun
      (fun w u => w * u + lights.logistic_loss u)
      (fun w u => w * lights.logistic_loss (-u) +
        (1 - w) * lights.logistic_loss u)
      (fun w u => by simp only [lights.logistic_loss_neg]; ring)
      pi_est
      (X.map fun x_i =>
        (lights.QNMCEM._get_xi_from_xi_ext p fi xi_ext).1 +
          lights.dotL x_i (lights.QNMCEM._get_xi_from_xi_ext p fi xi_ext).2)
    simp only [hz]
  · rfl

/-- C1 counterexample: at `X = [[0]]`, `pi_est = [0]`, `xi_ext = [0,0]`
(no intercept, no penalty) `QNMCEM._P_func` evaluates to `log 2` while
the claimed `mean[pi_est * logistic_loss] + pen` value is 0; and at
`X = [[0,0]]`, `pi_est = [0]`, `xi_ext = [1,0,1,0]` with `l_pen = 1`,
`eta = 0`, `MstepFunctions.P_pen_func` evaluates to 0 while the claimed
objective (penalty taken on `xi_ext`) is 2. -/
theorem C1_P_objectives_counterexample :
    lights.QNMCEM._P_func 0 0 1 false [[0]] [0] [0, 0] = Real.log 2 ∧
    lights.QNMCEM.P_pen_claimed 0 0 1 false [[0]] [0] [0, 0] = 0 ∧
    Real.log 2 ≠ 0 ∧
    lights.MstepFunctions.P_pen_func false 1 0 [[0, 0]] [0] [1, 0, 1, 0]
      = 0 ∧
    lights.QNMCEM.P_pen_claimed 1 0 2 false [[0, 0]] [0] [1, 0, 1, 0]
      = 2 := by
  refine ⟨?_, ?_, ne_of_gt (Real.log_pos (by norm_num)), ?_, ?_⟩
  · norm_num [lights.QNMCEM._P_func, lights.QNMCEM._get_xi_from_xi_ext,
      lights.QNMCEM._elastic_net_pen, lights.QNMCEM._clean_xi_ext,
      lights.meanL, lights.dotL, lights.normL2, lights.sumSq,
      lights.logistic_loss, Real.exp_zero]
  · norm_num [lights.QNMCEM.P_pen_claimed,
      lights.QNMCEM._get_xi_from_xi_ext, lights.QNMCEM._elastic_net_pen,
      lights.QNMCEM._clean_xi_ext, lights.meanL, lights.dotL,
      lights.normL2, lights.sumSq, lights.logistic_loss, Real.exp_zero]
  · norm_num [lights.MstepFunctions.P_pen_func,
      lights.MstepFunctions.P_func, lights.Penalties.elastic_net,
      lights.get_xi_from_xi_ext, lights.get_vect_from_ext,
      lights.clean_xi_ext, lights.meanL, lights.dotL, lights.normL2,
      lights.sumSq, lights.logistic_loss, Real.exp_zero]
  · norm_num [lights.QNMCEM.P_pen_claimed,
      lights.QNMCEM._get_xi_from_xi_ext, lights.QNMCEM._elastic_net_pen,
      lights.QNMCEM._clean_xi_ext, lights.meanL, lights.dotL,
      lights.normL2, lights.sumSq, lights.logistic_loss, Real.exp_zero]

namespace lights

theorem getD_range_map {β : Type} (f : ℕ → β) (n i : ℕ) (d : β)
    (h : i < n) : ((List.range n).map f).getD i d = f i := by
  rw [List.getD_eq_getElem?_getD, List.getElem?_map, List.getElem?_range h]
  rfl

theorem shape4_linear_association (n L N q r : ℕ) (b0 b1 : List ℚ)
    (S U V : List (List ℚ)) :
    AssociationFunctions.shape4
      (AssociationFunctions._linear_association n L N q r b0 b1 S U V)
      n 2 L (2 * N) := by
  unfold AssociationFunctions.shape4
    AssociationFunctions._linear_association
  refine ⟨by simp, ?_⟩
  intro a ha
  obtain ⟨i, hi, rfl⟩ := List.mem_map.mp ha
  refine ⟨rfl, ?_⟩
  intro b hb
  rcases List.mem_cons.mp hb with rfl | hb2
  · refine ⟨by simp, ?_⟩
    intro c hc
    obtain ⟨l2, hl2, rfl⟩ := List.mem_map.mp hc
    simp
  · rcases List.mem_cons.mp hb2 with rfl | hb3
    · refine ⟨by simp, ?_⟩
      intro c hc
      obtain ⟨l2, hl2, rfl⟩ := List.mem_map.mp hc
      simp
    · simp at hb3

theorem linear_association_entries (n L N q r : ℕ) (b0 b1 : List ℚ)
    (S U V : List (List ℚ)) (i l s : ℕ)
    (hi : i < n) (hl : l < L) (hs : s < 2 * N) :
    AssociationFunctions.get4
        (AssociationFunctions._linear_association n L N q r b0 b1 S U V)
        i 0 l s =
      dotL (U.getD i []) (sliceL b0 (q * l) q) +
        dotL (V.getD i []) (sliceL (S.getD s []) (r * l) r) ∧
    AssociationFunctions.get4
        (AssociationFunctions._linear_association n L N q r b0 b1 S U V)
        i 1 l s =
      dotL (U.getD i []) (sliceL b1 (q * l) q) +
        dotL (V.getD i []) (sliceL (S.getD s []) (r * l) r) := by
  unfold AssociationFunctions.get4
    AssociationFunctions._linear_association
  rw [getD_range_map _ _ _ _ hi]
  constructor
  · rw [List.getD_cons_zero, getD_range_map _ _ _ _ hl,
      getD_range_map _ _ _ _ hs]
  · rw [List.getD_cons_succ, List.getD_cons_zero,
      getD_range_map _ _ _ _ hl, getD_range_map _ _ _ _ hs]

theorem dotL_zipWith_sub (u : List ℚ) :
    ∀ (a b : List ℚ), a.length = b.length →
      dotL u (List.zipWith (· - ·) a b) = dotL u a - dotL u b := by
  induction u with
  | nil =>
    intro a b _
    simp [dotL]
  | cons w u2 ih =>
    intro a b h
    cases a with
    | nil =>
      cases b with
      | nil => simp [dotL]
      | cons y b2 => simp at h
    | cons x a2 =>
      cases b with
      | nil => simp at h
      | cons y b2 =>
        have h2 : a2.length = b2.length := by simpa using h
        have h3 := ih a2 b2 h2
        simp only [dotL, List.zipWith_cons_cons, List.sum_cons] at h3 ⊢
        rw [h3]
        ring

end lights

/-- C6: over `n_samples` time points, `L` longitudinal features and `2N`
Monte-Carlo draws (of dimension `r_l * L = 2L` each, as the NumPy
broadcast requires), `linear_predictor`, `time_dependent_slope` and
`cumulative_effects` each return a 4-D array of shape
`(n_samples, 2, L, 2N)`, and `random_effects` returns an array of shape
`(n_samples, 2, 2L, 2N)`. -/
theorem C6_association_function_shapes (T : List ℚ) (feto L N : ℕ)
    (beta0 beta1 : List ℚ) (S : List (List ℚ))
    (hS : S.length = 2 * N) (hrows : ∀ row ∈ S, row.length = 2 * L) :
    lights.AssociationFunctions.shape4
      (lights.AssociationFunctions.linear_predictor T feto L beta0 beta1 S)
      T.length 2 L (2 * N) ∧
    lights.AssociationFunctions.shape4
      (lights.AssociationFunctions.time_dependent_slope T feto L beta0
        beta1 S) T.length 2 L (2 * N) ∧
    lights.AssociationFunctions.shape4
      (lights.AssociationFunctions.cumulative_effects T feto L beta0
        beta1 S) T.length 2 L (2 * N) ∧
    lights.AssociationFunctions.shape4
      (lights.AssociationFunctions.random_effects T L S)
      T.length 2 (2 * L) (2 * N) := by
  have hN : S.length / 2 = N := by
    rw [hS]
    exact Nat.mul_div_cancel_left N (by norm_num)
  refine ⟨?_, ?_, ?_, ?_⟩
  · unfold lights.AssociationFunctions.linear_predictor
    rw [hN]
    exact lights.shape4_linear_association _ _ _ _ _ _ _ _ _ _
  · unfold lights.AssociationFunctions.time_dependent_slope
    rw [hN]
    exact lights.shape4_linear_association _ _ _ _ _ _ _ _ _ _
  · unfold lights.AssociationFunctions.cumulative_effects
    rw [hN]
    exact lights.shape4_linear_association _ _ _ _ _ _ _ _ _ _
  · unfold lights.AssociationFunctions.random_effects
      lights.AssociationFunctions.shape4
    rw [hN]
    refine ⟨by simp, ?_⟩
    intro a ha
    obtain ⟨i, hi, rfl⟩ := List.mem_map.mp ha
    refine ⟨by simp, ?_⟩
    intro b hb
    obtain ⟨k, hk, rfl⟩ := List.mem_map.mp hb
    refine ⟨by simp, ?_⟩
    intro c hc
    obtain ⟨j, hj, rfl⟩ := List.mem_map.mp hc
    simp

/-- C6 witness: a concrete instance with one subject, one feature and
`N = 1` antithetic pair of 2-dimensional draws. -/
theorem C6_association_function_shapes_witness :
    (([[1, 2], [3, 4]] : List (List ℚ)).length = 2 * 1 ∧
      ∀ row ∈ ([[1, 2], [3, 4]] : List (List ℚ)), row.length = 2 * 1) ∧
    lights.AssociationFunctions.shape4
      (lights.AssociationFunctions.linear_predictor [3] 0 1 [1] [2]
        [[1, 2], [3, 4]]) 1 2 1 (2 * 1) ∧
    lights.AssociationFunctions.shape4
      (lights.AssociationFunctions.random_effects [3] 1 [[1, 2], [3, 4]])
      1 2 (2 * 1) (2 * 1) := by
  have hrows : ∀ row ∈ ([[1, 2], [3, 4]] : List (List ℚ)),
      row.length = 2 * 1 := by
    intro row hrow
    rcases List.mem_cons.mp hrow with rfl | hrow2
    · rfl
    · rcases List.mem_cons.mp hrow2 with rfl | hrow3
      · rfl
      · simp at hrow3
  have h := C6_association_function_shapes [3] 0 1 1 [1] [2]
    [[1, 2], [3, 4]] rfl hrows
  exact ⟨⟨rfl, hrows⟩, h.1, h.2.2.2⟩

/-- C10: in `_linear_association`, the random-effect term is shared by
the two latent groups, so the group difference
`phi[i,0,l,s] - phi[i,1,l,s]` equals `U_i · (beta_{0,l} - beta_{1,l})`
and is unchanged when the Monte-Carlo draw set `S` is replaced by any
other draw set `S2`. -/
theorem C10_linear_association_group_difference (n L N q r : ℕ)
    (b0 b1 : List ℚ) (S S2 U V : List (List ℚ)) (i l s : ℕ)
    (hi : i < n) (hl : l < L) (hs : s < 2 * N)
    (hb : b0.length = b1.length) :
    lights.AssociationFunctions.get4
        (lights.AssociationFunctions._linear_association n L N q r b0 b1
          S U V) i 0 l s -
      lights.AssociationFunctions.get4
        (lights.AssociationFunctions._linear_association n L N q r b0 b1
          S U V) i 1 l s =
      lights.dotL (U.getD i []) (List.zipWith (· - ·)
        (lights.sliceL b0 (q * l) q) (lights.sliceL b1 (q * l) q)) ∧
    lights.AssociationFunctions.get4
        (lights.AssociationFunctions._linear_association n L N q r b0 b1
          S U V) i 0 l s -
      lights.AssociationFunctions.get4
        (lights.AssociationFunctions._linear_association n L N q r b0 b1
          S U V) i 1 l s =
      lights.AssociationFunctions.get4
        (lights.AssociationFunctions._linear_association n L N q r b0 b1
          S2 U V) i 0 l s -
        lights.AssociationFunctions.get4
          (lights.AssociationFunctions._linear_association n L N q r b0
            b1 S2 U V) i 1 l s := by
  obtain ⟨h0, h1⟩ := lights.linear_association_entries n L N q r b0 b1
    S U V i l s hi hl hs
  obtain ⟨h0b, h1b⟩ := lights.linear_association_entries n L N q r b0 b1
    S2 U V i l s hi hl hs
  have hlen : (lights.sliceL b0 (q * l) q).length =
      (lights.sliceL b1 (q * l) q).length := by
    simp [lights.sliceL, hb]
  have hd := lights.dotL_zipWith_sub (U.getD i []) _ _ hlen
  constructor
  · rw [h0, h1, hd]
    ring
  · rw [h0, h1, h0b, h1b]
    ring

/-- C10 witness: a concrete instance with one subject, one feature,
`q_l = 1`, `r_l = 2` and two different draw sets. -/
theorem C10_linear_association_group_difference_witness :
    ((0 : ℕ) < 1 ∧ (0 : ℕ) < 1 ∧ (0 : ℕ) < 2 * 1 ∧
      ([3] : List ℚ).length = ([5] : List ℚ).length) ∧
    lights.AssociationFunctions.get4
        (lights.AssociationFunctions._linear_association 1 1 1 1 2 [3]
          [5] [[1, 0], [0, 0]] [[1]] [[1, 0]]) 0 0 0 0 -
      lights.AssociationFunctions.get4
        (lights.AssociationFunctions._linear_association 1 1 1 1 2 [3]
          [5] [[1, 0], [0, 0]] [[1]] [[1, 0]]) 0 1 0 0 =
      lights.dotL ([[(1 : ℚ)]].getD 0 []) (List.zipWith (· - ·)
        (lights.sliceL [3] (1 * 0) 1) (lights.sliceL [5] (1 * 0) 1)) ∧
    lights.AssociationFunctions.get4
        (lights.AssociationFunctions._linear_association 1 1 1 1 2 [3]
          [5] [[1, 0], [0, 0]] [[1]] [[1, 0]]) 0 0 0 0 -
      lights.AssociationFunctions.get4
        (lights.AssociationFunctions._linear_association 1 1 1 1 2 [3]
          [5] [[1, 0], [0, 0]] [[1]] [[1, 0]]) 0 1 0 0 =
      lights.AssociationFunctions.get4
        (lights.AssociationFunctions._linear_association 1 1 1 1 2 [3]
          [5] [[2, 7], [1, 1]] [[1]] [[1, 0]]) 0 0 0 0 -
        lights.AssociationFunctions.get4
          (lights.AssociationFunctions._linear_association 1 1 1 1 2 [3]
            [5] [[2, 7], [1, 1]] [[1]] [[1, 0]]) 0 1 0 0 :=
  ⟨⟨by decide, by decide, by decide, rfl⟩,
    C10_linear_association_group_difference 1 1 1 1 2 [3] [5]
      [[1, 0], [0, 0]] [[2, 7], [1, 1]] [[1]] [[1, 0]] 0 0 0
      (by decide) (by decide) (by decide) rfl⟩
